import Mathlib

/-!
# Resource fetchers of `internal/api/stubs/rollouts/analysis.go`

A shallow embedding of the three accessors `GetAnalysisTemplate`,
`GetClusterAnalysisTemplate` and `GetAnalysisRun`, together with the pieces of
the Go runtime they call (`fmt.Errorf` with the verbs `%q` and `%w`,
`strconv.Quote`, `client.IgnoreNotFound`), followed by the properties of the
accessors.

Conventions of the embedding:
* a Go `string` is a Lean `String` (a sequence of Unicode scalar values, i.e.
  a string holding valid UTF-8);
* a Go `error` is `Option GoError`, `none` being the nil error;
* a Go pointer result `*T` is `Option T`, `none` being the nil pointer;
* the cluster client is stateful: every operation takes the client state and
  returns the new one.
-/

namespace Rollouts

/-! ## Errors -/

/-- Go error values: `*errors.errorString`, the API server's `*StatusError`
(reason, HTTP code, message) and `*fmt.wrapError`, the value `fmt.Errorf`
builds for a format with one `%w`. -/
inductive GoError where
  | errorString (s : String)
  | StatusError (reason : String) (code : Int) (message : String)
  | wrapError (msg : String) (err : GoError)
  deriving DecidableEq, Repr

/-- The method `Error()` of an error value. -/
def GoError.Error : GoError → String
  | .errorString s => s
  | .StatusError _ _ message => message
  | .wrapError msg _ => msg

/-- The function `errors.Unwrap`: the wrapped error of a `*fmt.wrapError`, nil
for the error types without an `Unwrap` method. -/
def GoError.Unwrap : GoError → Option GoError
  | .errorString _ => none
  | .StatusError _ _ _ => none
  | .wrapError _ err => some err

/-- An operand of a formatting call: this package passes strings and errors. -/
inductive FmtArg where
  | string (s : String)
  | error (e : GoError)
  deriving DecidableEq, Repr

/-- What this development takes from imported packages without spelling it
out: `isPrintTable` is the answer of `strconv.IsPrint`'s table lookup for runes
above U+00FF, `IsNotFound` is `apierrors.IsNotFound` on a non-nil error, and
`ErrorfOther` is `fmt.Errorf` on the calls outside the formats modelled by
`doPrintf` (flags, widths, other verbs, operand mismatches, several `%w`). -/
structure Deps where
  isPrintTable : Nat → Bool
  IsNotFound : GoError → Bool
  ErrorfOther : String → List FmtArg → GoError

/-! ## `strconv.Quote` -/

/-- The digit table `lowerhex` of `strconv`. -/
def lowerhex : List Char := "0123456789abcdef".data

/-- The digit `lowerhex[n & 0xF]`. -/
def hexDigit (n : Nat) : Char := lowerhex.getD (n % 16) '0'

/-- The function `strconv.IsPrint`: the Latin-1 fast path, then the tables. -/
def IsPrint (L : Deps) (r : Nat) : Bool :=
  if r ≤ 0xFF then
    if 0x20 ≤ r ∧ r ≤ 0x7E then true
    else if 0xA1 ≤ r ∧ r ≤ 0xFF then r != 0xAD
    else false
  else L.isPrintTable r

/-- The function `utf8.ValidRune`. -/
def ValidRune (r : Nat) : Bool :=
  if r < 0xD800 then true
  else if 0xDFFF < r ∧ r ≤ 0x10FFFF then true
  else false

/-- The code of the double quote, the `quote` byte of `strconv.Quote`. -/
def quoteRune : Nat := 34

/-- The code of the backslash. -/
def backslashRune : Nat := 92

/-- The backslash character. -/
def backslash : Char := Char.ofNat backslashRune

/-- The double quote character. -/
def dquote : Char := Char.ofNat quoteRune

/-- The digits of `\u` followed by four hex digits of `r`. -/
def escapeU4 (r : Nat) : List Char :=
  [backslash, 'u', hexDigit (r / 4096), hexDigit (r / 256), hexDigit (r / 16), hexDigit r]

/-- The function `strconv.appendEscapedRune` with `quote` the double quote,
`ASCIIonly` and `graphicOnly` false; the result is what is appended to the
buffer for the rune `c`. -/
def appendEscapedRune (L : Deps) (c : Char) : List Char :=
  let r := c.toNat
  if r = quoteRune ∨ r = backslashRune then [backslash, c]
  else if IsPrint L r then [c]
  else if r = 7 then [backslash, 'a']
  else if r = 8 then [backslash, 'b']
  else if r = 12 then [backslash, 'f']
  else if r = 10 then [backslash, 'n']
  else if r = 13 then [backslash, 'r']
  else if r = 9 then [backslash, 't']
  else if r = 11 then [backslash, 'v']
  else if r < 0x20 ∨ r = 0x7F then [backslash, 'x', hexDigit (r / 16), hexDigit r]
  else if ValidRune r = false then escapeU4 0xFFFD
  else if r < 0x10000 then escapeU4 r
  else [backslash, 'U', hexDigit (r / 268435456), hexDigit (r / 16777216),
    hexDigit (r / 1048576), hexDigit (r / 65536), hexDigit (r / 4096),
    hexDigit (r / 256), hexDigit (r / 16), hexDigit r]

/-- The loop of `strconv.appendQuotedWith` over the runes of the string. -/
def quoteRunes (L : Deps) : List Char → List Char
  | [] => []
  | c :: cs => appendEscapedRune L c ++ quoteRunes L cs

/-- The function `strconv.Quote`, which renders the verb `%q` of a string: the
escaped runes between two double quotes. -/
def Quote (L : Deps) (s : String) : String :=
  ⟨dquote :: (quoteRunes L s.data ++ [dquote])⟩

/-! ## `fmt.Errorf` -/

/-- The rendering of one operand under one verb, with the operand when the
verb is `%w`: `%q` quotes a string or an error's message, `%s` and `%v` print
it, `%w` prints an error's message and records the error. Other combinations
are outside the model. -/
def printArg (L : Deps) (verb : Char) (arg : FmtArg) : Option (String × List GoError) :=
  match arg with
  | .string s =>
    if verb = 'q' then some (Quote L s, [])
    else if verb = 's' ∨ verb = 'v' then some (s, [])
    else none
  | .error e =>
    if verb = 'q' then some (Quote L e.Error, [])
    else if verb = 's' ∨ verb = 'v' then some (e.Error, [])
    else if verb = 'w' then some (e.Error, [e])
    else none

/-- The method `doPrintf` of `fmt`'s printer with `wrapErrs` set, on formats
made of literal text, `%%` and the plain verbs of `printArg`: the buffer
produced and the operands of the `%w` verbs, or `none` for a call outside
the model. -/
def doPrintf (L : Deps) : List Char → List FmtArg → Option (List Char × List GoError)
  | [], [] => some ([], [])
  | [], _ :: _ => none
  | c :: format, a =>
    if c ≠ '%' then
      (doPrintf L format a).map fun r => (c :: r.1, r.2)
    else
      match format, a with
      | [], _ => none
      | verb :: format, a =>
        if verb = '%' then
          (doPrintf L format a).map fun r => ('%' :: r.1, r.2)
        else
          match a with
          | [] => none
          | arg :: a =>
            match printArg L verb arg, doPrintf L format a with
            | some p, some r => some (p.1.data ++ r.1, p.2 ++ r.2)
            | _, _ => none

/-- The function `fmt.Errorf`: no `%w` gives an `errors.New` value, one `%w`
gives a `*fmt.wrapError` holding the text and the operand. -/
def Errorf (L : Deps) (format : String) (a : List FmtArg) : GoError :=
  match doPrintf L format.data a with
  | some (buf, []) => GoError.errorString ⟨buf⟩
  | some (buf, [err]) => GoError.wrapError ⟨buf⟩ err
  | _ => L.ErrorfOther format a

/-- The function `strings.Contains`. -/
def Contains (s substr : String) : Prop := substr.data <:+: s.data

instance (s substr : String) : Decidable (Contains s substr) :=
  inferInstanceAs (Decidable (substr.data <:+: s.data))

/-- The function `strings.HasSuffix`. -/
def HasSuffix (s suffix : String) : Prop := suffix.data <:+ s.data

instance (s suffix : String) : Decidable (HasSuffix s suffix) :=
  inferInstanceAs (Decidable (suffix.data <:+ s.data))

/-- A string made only of printable runes other than the double quote and the
backslash. -/
def plainPrintable (L : Deps) (s : String) : Bool :=
  s.data.all fun c => IsPrint L c.toNat && c.toNat != quoteRune && c.toNat != backslashRune

/-! ## The cluster client -/

/-- The struct `types.NamespacedName`. -/
structure NamespacedName where
  Namespace : String := ""
  Name : String := ""
  deriving DecidableEq, Repr

/-- A `context.Context` as a fetch sees it: the value of `ctx.Err()`, nil while
the context is live, `context.Canceled` or `context.DeadlineExceeded` once it
is cancelled or its deadline has elapsed. -/
structure Context where
  Err : Option GoError
  deriving DecidableEq, Repr

/-- The three object types this package passes to the client. -/
inductive Kind where
  | AnalysisTemplate
  | ClusterAnalysisTemplate
  | AnalysisRun
  deriving DecidableEq, Repr

/-- The interface `client.Client` (its `Reader` and `Writer` methods, options
left out) over a client state `σ`. `Obj k` is the schema of kind `k`. An
operation receives the object the caller points to and returns it as the
client leaves it, with the error. -/
structure Client (σ : Type) (Obj : Kind → Type) where
  Get : (k : Kind) → Context → NamespacedName → Obj k → σ → (Obj k × Option GoError) × σ
  List : (k : Kind) → Context → List (Obj k) → σ → (List (Obj k) × Option GoError) × σ
  Create : (k : Kind) → Context → Obj k → σ → (Obj k × Option GoError) × σ
  Delete : (k : Kind) → Context → Obj k → σ → (Obj k × Option GoError) × σ
  Update : (k : Kind) → Context → Obj k → σ → (Obj k × Option GoError) × σ
  Patch : (k : Kind) → Context → Obj k → σ → (Obj k × Option GoError) × σ
  DeleteAllOf : (k : Kind) → Context → Obj k → σ → (Obj k × Option GoError) × σ

/-- The function `client.IgnoreNotFound`: nil for a not-found error (and for
nil), the error itself otherwise. -/
def IgnoreNotFound (L : Deps) (err : Option GoError) : Option GoError :=
  match err with
  | none => none
  | some e => if L.IsNotFound e then none else some e

/-- One entry of a client's call log: the method called and, for `Get`, the
context and the key it was given. -/
inductive ClientCall where
  | Get (k : Kind) (ctx : Context) (key : NamespacedName)
  | List (k : Kind) (ctx : Context)
  | Create (k : Kind) (ctx : Context)
  | Delete (k : Kind) (ctx : Context)
  | Update (k : Kind) (ctx : Context)
  | Patch (k : Kind) (ctx : Context)
  | DeleteAllOf (k : Kind) (ctx : Context)
  deriving DecidableEq, Repr

/-- The client `c` with a call log next to its state: every method appends its
entry to the log and then behaves as `c` does. -/
def recording {σ : Type} {Obj : Kind → Type} (c : Client σ Obj) :
    Client (σ × List ClientCall) Obj where
  Get k ctx key obj st :=
    let r := c.Get k ctx key obj st.1
    (r.1, (r.2, st.2 ++ [ClientCall.Get k ctx key]))
  List k ctx objs st :=
    let r := c.List k ctx objs st.1
    (r.1, (r.2, st.2 ++ [ClientCall.List k ctx]))
  Create k ctx obj st :=
    let r := c.Create k ctx obj st.1
    (r.1, (r.2, st.2 ++ [ClientCall.Create k ctx]))
  Delete k ctx obj st :=
    let r := c.Delete k ctx obj st.1
    (r.1, (r.2, st.2 ++ [ClientCall.Delete k ctx]))
  Update k ctx obj st :=
    let r := c.Update k ctx obj st.1
    (r.1, (r.2, st.2 ++ [ClientCall.Update k ctx]))
  Patch k ctx obj st :=
    let r := c.Patch k ctx obj st.1
    (r.1, (r.2, st.2 ++ [ClientCall.Patch k ctx]))
  DeleteAllOf k ctx obj st :=
    let r := c.DeleteAllOf k ctx obj st.1
    (r.1, (r.2, st.2 ++ [ClientCall.DeleteAllOf k ctx]))

/-! ## The fetchers -/

section Fetchers

variable {σ : Type} {Obj : Kind → Type} [∀ k, Inhabited (Obj k)]

/-- The function `GetAnalysisTemplate`. -/
def GetAnalysisTemplate (L : Deps) (ctx : Context) (c : Client σ Obj)
    (namespacedName : NamespacedName) (st : σ) :
    (Option (Obj Kind.AnalysisTemplate) × Option GoError) × σ :=
  let r := c.Get Kind.AnalysisTemplate ctx namespacedName default st
  match r.1.2 with
  | some err =>
    match IgnoreNotFound L (some err) with
    | none => ((none, none), r.2)
    | some err =>
      ((none, some (Errorf L "error getting AnalysisTemplate %q in namespace %q: %w"
        [FmtArg.string namespacedName.Name, FmtArg.string namespacedName.Namespace,
          FmtArg.error err])), r.2)
  | none => ((some r.1.1, none), r.2)

/-- The function `GetClusterAnalysisTemplate`. -/
def GetClusterAnalysisTemplate (L : Deps) (ctx : Context) (c : Client σ Obj)
    (name : String) (st : σ) :
    (Option (Obj Kind.ClusterAnalysisTemplate) × Option GoError) × σ :=
  let r := c.Get Kind.ClusterAnalysisTemplate ctx { Name := name } default st
  match r.1.2 with
  | some err =>
    match IgnoreNotFound L (some err) with
    | none => ((none, none), r.2)
    | some err =>
      ((none, some (Errorf L "error getting ClusterAnalysisTemplate %q: %w"
        [FmtArg.string name, FmtArg.error err])), r.2)
  | none => ((some r.1.1, none), r.2)

/-- The function `GetAnalysisRun`. -/
def GetAnalysisRun (L : Deps) (ctx : Context) (c : Client σ Obj)
    (namespacedName : NamespacedName) (st : σ) :
    (Option (Obj Kind.AnalysisRun) × Option GoError) × σ :=
  let r := c.Get Kind.AnalysisRun ctx namespacedName default st
  match r.1.2 with
  | some err =>
    match IgnoreNotFound L (some err) with
    | none => ((none, none), r.2)
    | some err =>
      ((none, some (Errorf L "error getting AnalysisRun %q in namespace %q: %w"
        [FmtArg.string namespacedName.Name, FmtArg.string namespacedName.Namespace,
          FmtArg.error err])), r.2)
  | none => ((some r.1.1, none), r.2)

end Fetchers

/-! ## A sample cluster

Concrete dependencies and clients on which the properties below are
exercised. -/

/-- A sample schema: the content of an object of any kind is a string. -/
abbrev SampleObj (_ : Kind) : Type := String

/-- A sample not-found classifier: the first status found along the chain of
wrapped errors has the reason `NotFound`. -/
def sampleIsNotFound : GoError → Bool
  | .errorString _ => false
  | .StatusError reason _ _ => reason == "NotFound"
  | .wrapError _ err => sampleIsNotFound err

/-- Sample dependencies: no rune above U+00FF is taken as printable. -/
def sampleDeps : Deps where
  isPrintTable := fun _ => false
  IsNotFound := sampleIsNotFound
  ErrorfOther := fun format _ => GoError.errorString format

/-- The API server's answer for a missing object. -/
def errNotFound : GoError := GoError.StatusError "NotFound" 404 "not found"

/-- The API server's answer for a request the caller may not make. -/
def errForbidden : GoError := GoError.StatusError "Forbidden" 403 "forbidden"

/-- The error `context.Canceled`. -/
def errCanceled : GoError := GoError.errorString "context canceled"

/-- A live context. -/
def liveCtx : Context := { Err := none }

/-- A cancelled context. -/
def canceledCtx : Context := { Err := some errCanceled }

/-- The `Get` of the sample cluster, whose state counts the requests served.
It gives up with the context's error on a finished context. It holds the
AnalysisTemplate `foo` and the AnalysisRun `run-1` in namespace `ns` and the
ClusterAnalysisTemplate `global`; reading AnalysisRun `baz`, any
AnalysisTemplate of namespace `kube-system` or the ClusterAnalysisTemplate
`restricted` is forbidden; everything else is missing. -/
def sampleGet (k : Kind) (ctx : Context) (key : NamespacedName) (obj : SampleObj k)
    (served : Nat) : (SampleObj k × Option GoError) × Nat :=
  match ctx.Err with
  | some e => ((obj, some e), served + 1)
  | none =>
    match k with
    | Kind.AnalysisTemplate =>
      if key = { Namespace := "ns", Name := "foo" } then (("template foo", none), served + 1)
      else if key.Namespace = "kube-system" then ((obj, some errForbidden), served + 1)
      else ((obj, some errNotFound), served + 1)
    | Kind.ClusterAnalysisTemplate =>
      if key = { Name := "global" } then (("cluster template global", none), served + 1)
      else if key = { Name := "restricted" } then ((obj, some errForbidden), served + 1)
      else ((obj, some errNotFound), served + 1)
    | Kind.AnalysisRun =>
      if key = { Namespace := "ns", Name := "run-1" } then (("run 1", none), served + 1)
      else if key.Name = "baz" then ((obj, some errForbidden), served + 1)
      else ((obj, some errNotFound), served + 1)

/-- The sample cluster's client; its other methods serve the request without
touching the object. -/
def sampleClient : Client Nat SampleObj where
  Get := sampleGet
  List := fun _ _ objs served => ((objs, none), served + 1)
  Create := fun _ _ obj served => ((obj, none), served + 1)
  Delete := fun _ _ obj served => ((obj, none), served + 1)
  Update := fun _ _ obj served => ((obj, none), served + 1)
  Patch := fun _ _ obj served => ((obj, none), served + 1)
  DeleteAllOf := fun _ _ obj served => ((obj, none), served + 1)

/-- A client answering every `Get` from memory, without looking at the
context. -/
def cacheClient : Client Unit SampleObj where
  Get := fun _ _ key _ st => ((key.Name, none), st)
  List := fun _ _ objs st => ((objs, none), st)
  Create := fun _ _ obj st => ((obj, none), st)
  Delete := fun _ _ obj st => ((obj, none), st)
  Update := fun _ _ obj st => ((obj, none), st)
  Patch := fun _ _ obj st => ((obj, none), st)
  DeleteAllOf := fun _ _ obj st => ((obj, none), st)

/-- A client that sends every `Get` over the network: on a finished context
the request is aborted with an error wrapping the context's error, otherwise
the object is returned. -/
def remoteClient : Client Unit SampleObj where
  Get := fun _ ctx key obj st =>
    match ctx.Err with
    | some cause => ((obj, some (GoError.wrapError ("request aborted: " ++ cause.Error) cause)), st)
    | none => ((key.Name, none), st)
  List := fun _ _ objs st => ((objs, none), st)
  Create := fun _ _ obj st => ((obj, none), st)
  Delete := fun _ _ obj st => ((obj, none), st)
  Update := fun _ _ obj st => ((obj, none), st)
  Patch := fun _ _ obj st => ((obj, none), st)
  DeleteAllOf := fun _ _ obj st => ((obj, none), st)

/-- A client whose credentials allow nothing: every `Get` is forbidden. -/
def deniedClient : Client Unit SampleObj where
  Get := fun _ _ _ obj st => ((obj, some errForbidden), st)
  List := fun _ _ objs st => ((objs, some errForbidden), st)
  Create := fun _ _ obj st => ((obj, some errForbidden), st)
  Delete := fun _ _ obj st => ((obj, some errForbidden), st)
  Update := fun _ _ obj st => ((obj, some errForbidden), st)
  Patch := fun _ _ obj st => ((obj, some errForbidden), st)
  DeleteAllOf := fun _ _ obj st => ((obj, some errForbidden), st)

/-! ## Lemmas on quoting and formatting -/

theorem quoteRunes_plain (L : Deps) (cs : List Char)
    (h : ∀ c ∈ cs, IsPrint L c.toNat = true ∧ c.toNat ≠ quoteRune ∧ c.toNat ≠ backslashRune) :
    quoteRunes L cs = cs := by
  induction cs with
  | nil => rfl
  | cons c cs ih =>
    have hc := h c (List.mem_cons_self c cs)
    have hcs : ∀ d ∈ cs, IsPrint L d.toNat = true ∧ d.toNat ≠ quoteRune ∧ d.toNat ≠ backslashRune :=
      fun d hd => h d (List.mem_cons_of_mem c hd)
    simp [quoteRunes, appendEscapedRune, hc.1, hc.2.1, hc.2.2, ih hcs]

theorem Quote_plain (L : Deps) (s : String) (h : plainPrintable L s = true) :
    Quote L s = "\"" ++ s ++ "\"" := by
  have hall : ∀ c ∈ s.data,
      IsPrint L c.toNat = true ∧ c.toNat ≠ quoteRune ∧ c.toNat ≠ backslashRune := by
    intro c hc
    have := (List.all_eq_true.mp h) c hc
    simpa [Bool.and_eq_true, and_assoc] using this
  apply String.ext
  simp [Quote, quoteRunes_plain L s.data hall]
  rfl

theorem Errorf_AnalysisTemplate (L : Deps) (name ns : String) (e : GoError) :
    Errorf L "error getting AnalysisTemplate %q in namespace %q: %w"
        [FmtArg.string name, FmtArg.string ns, FmtArg.error e] =
      GoError.wrapError
        ("error getting AnalysisTemplate " ++ Quote L name ++ " in namespace " ++ Quote L ns ++
          ": " ++ e.Error) e := by
  have h : doPrintf L "error getting AnalysisTemplate %q in namespace %q: %w".data
      [FmtArg.string name, FmtArg.string ns, FmtArg.error e] =
      some ("error getting AnalysisTemplate ".data ++ ((Quote L name).data ++
        (" in namespace ".data ++ ((Quote L ns).data ++ (": ".data ++ (e.Error.data ++ []))))),
        [e]) := rfl
  unfold Errorf
  rw [h]
  show GoError.wrapError _ e = GoError.wrapError _ e
  congr 1
  apply String.ext
  simp [String.data_append, List.append_assoc]

theorem Errorf_ClusterAnalysisTemplate (L : Deps) (name : String) (e : GoError) :
    Errorf L "error getting ClusterAnalysisTemplate %q: %w"
        [FmtArg.string name, FmtArg.error e] =
      GoError.wrapError
        ("error getting ClusterAnalysisTemplate " ++ Quote L name ++ ": " ++ e.Error) e := by
  have h : doPrintf L "error getting ClusterAnalysisTemplate %q: %w".data
      [FmtArg.string name, FmtArg.error e] =
      some ("error getting ClusterAnalysisTemplate ".data ++ ((Quote L name).data ++
        (": ".data ++ (e.Error.data ++ []))), [e]) := rfl
  unfold Errorf
  rw [h]
  show GoError.wrapError _ e = GoError.wrapError _ e
  congr 1
  apply String.ext
  simp [String.data_append, List.append_assoc]

theorem Errorf_AnalysisRun (L : Deps) (name ns : String) (e : GoError) :
    Errorf L "error getting AnalysisRun %q in namespace %q: %w"
        [FmtArg.string name, FmtArg.string ns, FmtArg.error e] =
      GoError.wrapError
        ("error getting AnalysisRun " ++ Quote L name ++ " in namespace " ++ Quote L ns ++
          ": " ++ e.Error) e := by
  have h : doPrintf L "error getting AnalysisRun %q in namespace %q: %w".data
      [FmtArg.string name, FmtArg.string ns, FmtArg.error e] =
      some ("error getting AnalysisRun ".data ++ ((Quote L name).data ++
        (" in namespace ".data ++ ((Quote L ns).data ++ (": ".data ++ (e.Error.data ++ []))))),
        [e]) := rfl
  unfold Errorf
  rw [h]
  show GoError.wrapError _ e = GoError.wrapError _ e
  congr 1
  apply String.ext
  simp [String.data_append, List.append_assoc]

theorem Contains_append_left (s t x : String) (h : Contains s x) : Contains (s ++ t) x := by
  obtain ⟨a, b, hab⟩ := h
  exact ⟨a, b ++ t.data, by simp [String.data_append, ← hab, List.append_assoc]⟩

theorem Contains_append_right (s t x : String) (h : Contains t x) : Contains (s ++ t) x := by
  obtain ⟨a, b, hab⟩ := h
  exact ⟨s.data ++ a, b, by simp [String.data_append, ← hab, List.append_assoc]⟩

theorem Contains_Quote_plain (L : Deps) (s : String) (h : plainPrintable L s = true) :
    Contains (Quote L s) s := by
  rw [Quote_plain L s h]
  exact Contains_append_left _ _ _ (Contains_append_right _ _ _ ⟨[], [], by simp⟩)

theorem HasSuffix_append (s t : String) : HasSuffix (s ++ t) t :=
  ⟨s.data, by simp [String.data_append]⟩

/-! ## The three outcomes of each fetcher -/

section Outcomes

variable {σ : Type} {Obj : Kind → Type} [∀ k, Inhabited (Obj k)]

theorem GetAnalysisTemplate_ok (L : Deps) (ctx : Context) (c : Client σ Obj)
    (key : NamespacedName) (st : σ)
    (h : (c.Get Kind.AnalysisTemplate ctx key default st).1.2 = none) :
    GetAnalysisTemplate L ctx c key st =
      ((some (c.Get Kind.AnalysisTemplate ctx key default st).1.1, none),
        (c.Get Kind.AnalysisTemplate ctx key default st).2) := by
  simp [GetAnalysisTemplate, h]

theorem GetAnalysisTemplate_notFound (L : Deps) (ctx : Context) (c : Client σ Obj)
    (key : NamespacedName) (st : σ) (e : GoError)
    (h : (c.Get Kind.AnalysisTemplate ctx key default st).1.2 = some e)
    (hnf : L.IsNotFound e = true) :
    GetAnalysisTemplate L ctx c key st =
      ((none, none), (c.Get Kind.AnalysisTemplate ctx key default st).2) := by
  simp [GetAnalysisTemplate, h, IgnoreNotFound, hnf]

theorem GetAnalysisTemplate_err (L : Deps) (ctx : Context) (c : Client σ Obj)
    (key : NamespacedName) (st : σ) (e : GoError)
    (h : (c.Get Kind.AnalysisTemplate ctx key default st).1.2 = some e)
    (hnf : L.IsNotFound e = false) :
    GetAnalysisTemplate L ctx c key st =
      ((none, some (GoError.wrapError
        ("error getting AnalysisTemplate " ++ Quote L key.Name ++ " in namespace " ++
          Quote L key.Namespace ++ ": " ++ e.Error) e)),
        (c.Get Kind.AnalysisTemplate ctx key default st).2) := by
  simp [GetAnalysisTemplate, h, IgnoreNotFound, hnf, Errorf_AnalysisTemplate]

theorem GetClusterAnalysisTemplate_ok (L : Deps) (ctx : Context) (c : Client σ Obj)
    (name : String) (st : σ)
    (h : (c.Get Kind.ClusterAnalysisTemplate ctx { Name := name } default st).1.2 = none) :
    GetClusterAnalysisTemplate L ctx c name st =
      ((some (c.Get Kind.ClusterAnalysisTemplate ctx { Name := name } default st).1.1, none),
        (c.Get Kind.ClusterAnalysisTemplate ctx { Name := name } default st).2) := by
  simp [GetClusterAnalysisTemplate, h]

theorem GetClusterAnalysisTemplate_notFound (L : Deps) (ctx : Context) (c : Client σ Obj)
    (name : String) (st : σ) (e : GoError)
    (h : (c.Get Kind.ClusterAnalysisTemplate ctx { Name := name } default st).1.2 = some e)
    (hnf : L.IsNotFound e = true) :
    GetClusterAnalysisTemplate L ctx c name st =
      ((none, none), (c.Get Kind.ClusterAnalysisTemplate ctx { Name := name } default st).2) := by
  simp [GetClusterAnalysisTemplate, h, IgnoreNotFound, hnf]

theorem GetClusterAnalysisTemplate_err (L : Deps) (ctx : Context) (c : Client σ Obj)
    (name : String) (st : σ) (e : GoError)
    (h : (c.Get Kind.ClusterAnalysisTemplate ctx { Name := name } default st).1.2 = some e)
    (hnf : L.IsNotFound e = false) :
    GetClusterAnalysisTemplate L ctx c name st =
      ((none, some (GoError.wrapError
        ("error getting ClusterAnalysisTemplate " ++ Quote L name ++ ": " ++ e.Error) e)),
        (c.Get Kind.ClusterAnalysisTemplate ctx { Name := name } default st).2) := by
  simp [GetClusterAnalysisTemplate, h, IgnoreNotFound, hnf, Errorf_ClusterAnalysisTemplate]

theorem GetAnalysisRun_ok (L : Deps) (ctx : Context) (c : Client σ Obj)
    (key : NamespacedName) (st : σ)
    (h : (c.Get Kind.AnalysisRun ctx key default st).1.2 = none) :
    GetAnalysisRun L ctx c key st =
      ((some (c.Get Kind.AnalysisRun ctx key default st).1.1, none),
        (c.Get Kind.AnalysisRun ctx key default st).2) := by
  simp [GetAnalysisRun, h]

theorem GetAnalysisRun_notFound (L : Deps) (ctx : Context) (c : Client σ Obj)
    (key : NamespacedName) (st : σ) (e : GoError)
    (h : (c.Get Kind.AnalysisRun ctx key default st).1.2 = some e)
    (hnf : L.IsNotFound e = true) :
    GetAnalysisRun L ctx c key st =
      ((none, none), (c.Get Kind.AnalysisRun ctx key default st).2) := by
  simp [GetAnalysisRun, h, IgnoreNotFound, hnf]

theorem GetAnalysisRun_err (L : Deps) (ctx : Context) (c : Client σ Obj)
    (key : NamespacedName) (st : σ) (e : GoError)
    (h : (c.Get Kind.AnalysisRun ctx key default st).1.2 = some e)
    (hnf : L.IsNotFound e = false) :
    GetAnalysisRun L ctx c key st =
      ((none, some (GoError.wrapError
        ("error getting AnalysisRun " ++ Quote L key.Name ++ " in namespace " ++
          Quote L key.Namespace ++ ": " ++ e.Error) e)),
        (c.Get Kind.AnalysisRun ctx key default st).2) := by
  simp [GetAnalysisRun, h, IgnoreNotFound, hnf, Errorf_AnalysisRun]

theorem GetAnalysisTemplate_state (L : Deps) (ctx : Context) (c : Client σ Obj)
    (key : NamespacedName) (st : σ) :
    (GetAnalysisTemplate L ctx c key st).2 =
      (c.Get Kind.AnalysisTemplate ctx key default st).2 := by
  cases h : (c.Get Kind.AnalysisTemplate ctx key default st).1.2 with
  | none => rw [GetAnalysisTemplate_ok L ctx c key st h]
  | some e =>
    cases hnf : L.IsNotFound e with
    | true => rw [GetAnalysisTemplate_notFound L ctx c key st e h hnf]
    | false => rw [GetAnalysisTemplate_err L ctx c key st e h hnf]

theorem GetClusterAnalysisTemplate_state (L : Deps) (ctx : Context) (c : Client σ Obj)
    (name : String) (st : σ) :
    (GetClusterAnalysisTemplate L ctx c name st).2 =
      (c.Get Kind.ClusterAnalysisTemplate ctx { Name := name } default st).2 := by
  cases h : (c.Get Kind.ClusterAnalysisTemplate ctx { Name := name } default st).1.2 with
  | none => rw [GetClusterAnalysisTemplate_ok L ctx c name st h]
  | some e =>
    cases hnf : L.IsNotFound e with
    | true => rw [GetClusterAnalysisTemplate_notFound L ctx c name st e h hnf]
    | false => rw [GetClusterAnalysisTemplate_err L ctx c name st e h hnf]

theorem GetAnalysisRun_state (L : Deps) (ctx : Context) (c : Client σ Obj)
    (key : NamespacedName) (st : σ) :
    (GetAnalysisRun L ctx c key st).2 = (c.Get Kind.AnalysisRun ctx key default st).2 := by
  cases h : (c.Get Kind.AnalysisRun ctx key default st).1.2 with
  | none => rw [GetAnalysisRun_ok L ctx c key st h]
  | some e =>
    cases hnf : L.IsNotFound e with
    | true => rw [GetAnalysisRun_notFound L ctx c key st e h hnf]
    | false => rw [GetAnalysisRun_err L ctx c key st e h hnf]

/-- The shape of a fetch result `R` against the error `G` of the client's
`Get`: one of the three outcomes, decided by `G`. -/
theorem shape_of_cases {α : Type} (L : Deps) (G : Option GoError) (R : Option α × Option GoError)
    (hok : G = none → ∃ obj, R = (some obj, none))
    (hnf : ∀ e, G = some e → L.IsNotFound e = true → R = (none, none))
    (herr : ∀ e, G = some e → L.IsNotFound e = false → ∃ r, R = (none, some r)) :
    ((∃ obj, R = (some obj, none)) ∨ R = (none, none) ∨ ∃ r, R = (none, some r)) ∧
    ¬ (R.1 ≠ none ∧ R.2 ≠ none) ∧
    (R.2 ≠ none ↔ ∃ e, G = some e ∧ L.IsNotFound e = false) ∧
    (R.1 ≠ none ↔ G = none) := by
  cases hG : G with
  | none =>
    obtain ⟨obj, rfl⟩ := hok hG
    simp
  | some e =>
    cases hN : L.IsNotFound e with
    | true =>
      rw [hnf e hG hN]
      simp [hN]
    | false =>
      obtain ⟨r, rfl⟩ := herr e hG hN
      simp [hN]

end Outcomes

/-! ## Properties of the fetchers -/

section Claims

variable {σ : Type} {Obj : Kind → Type} [∀ k, Inhabited (Obj k)]

/-- C1: for each of the three fetchers, every client, context, identifier and
client state, when the client's `Get` for that identifier returns a nil error
the fetch returns a non-nil pointer to the object as the client populated it,
and a nil error. -/
theorem fetch_found (L : Deps) (ctx : Context) (c : Client σ Obj)
    (key : NamespacedName) (name : String) (st : σ) :
    ((c.Get Kind.AnalysisTemplate ctx key default st).1.2 = none →
      (GetAnalysisTemplate L ctx c key st).1 =
        (some (c.Get Kind.AnalysisTemplate ctx key default st).1.1, none)) ∧
    ((c.Get Kind.ClusterAnalysisTemplate ctx { Name := name } default st).1.2 = none →
      (GetClusterAnalysisTemplate L ctx c name st).1 =
        (some (c.Get Kind.ClusterAnalysisTemplate ctx { Name := name } default st).1.1, none)) ∧
    ((c.Get Kind.AnalysisRun ctx key default st).1.2 = none →
      (GetAnalysisRun L ctx c key st).1 =
        (some (c.Get Kind.AnalysisRun ctx key default st).1.1, none)) := by
  refine ⟨fun h => ?_, fun h => ?_, fun h => ?_⟩
  · rw [GetAnalysisTemplate_ok L ctx c key st h]
  · rw [GetClusterAnalysisTemplate_ok L ctx c name st h]
  · rw [GetAnalysisRun_ok L ctx c key st h]

/-- Witness of C1 on the sample cluster: AnalysisTemplate `foo` in `ns`,
ClusterAnalysisTemplate `global` and AnalysisRun `run-1` in `ns` exist and are
returned as stored. -/
theorem fetch_found_witness :
    (GetAnalysisTemplate sampleDeps liveCtx sampleClient (NamespacedName.mk "ns" "foo") 0).1 =
        (some "template foo", none) ∧
    (GetClusterAnalysisTemplate sampleDeps liveCtx sampleClient "global" 0).1 =
        (some "cluster template global", none) ∧
    (GetAnalysisRun sampleDeps liveCtx sampleClient (NamespacedName.mk "ns" "run-1") 0).1 =
        (some "run 1", none) :=
  ⟨(fetch_found sampleDeps liveCtx sampleClient (NamespacedName.mk "ns" "foo") "global" 0).1 rfl,
    (fetch_found sampleDeps liveCtx sampleClient (NamespacedName.mk "ns" "foo") "global" 0).2.1 rfl,
    (fetch_found sampleDeps liveCtx sampleClient (NamespacedName.mk "ns" "run-1") "global" 0).2.2
      rfl⟩

/-- C2: for each of the three fetchers, every client, context, identifier and
client state, when the client's `Get` fails with a not-found error the fetch
returns a nil resource and a nil error. -/
theorem fetch_not_found (L : Deps) (ctx : Context) (c : Client σ Obj)
    (key : NamespacedName) (name : String) (st : σ) (e : GoError)
    (hnf : L.IsNotFound e = true) :
    ((c.Get Kind.AnalysisTemplate ctx key default st).1.2 = some e →
      (GetAnalysisTemplate L ctx c key st).1 = (none, none)) ∧
    ((c.Get Kind.ClusterAnalysisTemplate ctx { Name := name } default st).1.2 = some e →
      (GetClusterAnalysisTemplate L ctx c name st).1 = (none, none)) ∧
    ((c.Get Kind.AnalysisRun ctx key default st).1.2 = some e →
      (GetAnalysisRun L ctx c key st).1 = (none, none)) := by
  refine ⟨fun h => ?_, fun h => ?_, fun h => ?_⟩
  · rw [GetAnalysisTemplate_notFound L ctx c key st e h hnf]
  · rw [GetClusterAnalysisTemplate_notFound L ctx c name st e h hnf]
  · rw [GetAnalysisRun_notFound L ctx c key st e h hnf]

/-- Witness of C2 on the sample cluster: neither the ClusterAnalysisTemplate
`bar` nor anything named `bar` in namespace `ns` exists; each fetch gives a nil
resource and a nil error. -/
theorem fetch_not_found_witness :
    sampleDeps.IsNotFound errNotFound = true ∧
    (GetAnalysisTemplate sampleDeps liveCtx sampleClient (NamespacedName.mk "ns" "bar") 0).1 =
        (none, none) ∧
    (GetClusterAnalysisTemplate sampleDeps liveCtx sampleClient "bar" 0).1 = (none, none) ∧
    (GetAnalysisRun sampleDeps liveCtx sampleClient (NamespacedName.mk "ns" "bar") 0).1 =
        (none, none) :=
  ⟨rfl,
    (fetch_not_found sampleDeps liveCtx sampleClient (NamespacedName.mk "ns" "bar") "bar" 0
      errNotFound rfl).1 rfl,
    (fetch_not_found sampleDeps liveCtx sampleClient (NamespacedName.mk "ns" "bar") "bar" 0
      errNotFound rfl).2.1 rfl,
    (fetch_not_found sampleDeps liveCtx sampleClient (NamespacedName.mk "ns" "bar") "bar" 0
      errNotFound rfl).2.2 rfl⟩

/-- C3: for each of the three fetchers, every client, context, identifier and
client state, when the client's `Get` fails with an error that is not a
not-found error the fetch returns a nil resource and a non-nil error. -/
theorem fetch_other_failure (L : Deps) (ctx : Context) (c : Client σ Obj)
    (key : NamespacedName) (name : String) (st : σ) (e : GoError)
    (hnf : L.IsNotFound e = false) :
    ((c.Get Kind.AnalysisTemplate ctx key default st).1.2 = some e →
      (GetAnalysisTemplate L ctx c key st).1.1 = none ∧
        (GetAnalysisTemplate L ctx c key st).1.2 ≠ none) ∧
    ((c.Get Kind.ClusterAnalysisTemplate ctx { Name := name } default st).1.2 = some e →
      (GetClusterAnalysisTemplate L ctx c name st).1.1 = none ∧
        (GetClusterAnalysisTemplate L ctx c name st).1.2 ≠ none) ∧
    ((c.Get Kind.AnalysisRun ctx key default st).1.2 = some e →
      (GetAnalysisRun L ctx c key st).1.1 = none ∧
        (GetAnalysisRun L ctx c key st).1.2 ≠ none) := by
  refine ⟨fun h => ?_, fun h => ?_, fun h => ?_⟩
  · rw [GetAnalysisTemplate_err L ctx c key st e h hnf]
    exact ⟨rfl, by simp⟩
  · rw [GetClusterAnalysisTemplate_err L ctx c name st e h hnf]
    exact ⟨rfl, by simp⟩
  · rw [GetAnalysisRun_err L ctx c key st e h hnf]
    exact ⟨rfl, by simp⟩

/-- Witness of C3 on the sample cluster: reading AnalysisTemplate `foo` of
`kube-system`, ClusterAnalysisTemplate `restricted` and AnalysisRun `baz` of
`ns` is forbidden; each fetch gives a nil resource and a non-nil error. -/
theorem fetch_other_failure_witness :
    sampleDeps.IsNotFound errForbidden = false ∧
    ((GetAnalysisTemplate sampleDeps liveCtx sampleClient
        (NamespacedName.mk "kube-system" "foo") 0).1.1 = none ∧
      (GetAnalysisTemplate sampleDeps liveCtx sampleClient
        (NamespacedName.mk "kube-system" "foo") 0).1.2 ≠ none) ∧
    ((GetClusterAnalysisTemplate sampleDeps liveCtx sampleClient "restricted" 0).1.1 = none ∧
      (GetClusterAnalysisTemplate sampleDeps liveCtx sampleClient "restricted" 0).1.2 ≠ none) ∧
    ((GetAnalysisRun sampleDeps liveCtx sampleClient (NamespacedName.mk "ns" "baz") 0).1.1 = none ∧
      (GetAnalysisRun sampleDeps liveCtx sampleClient (NamespacedName.mk "ns" "baz") 0).1.2 ≠
        none) :=
  ⟨rfl,
    (fetch_other_failure sampleDeps liveCtx sampleClient (NamespacedName.mk "kube-system" "foo")
      "restricted" 0 errForbidden rfl).1 rfl,
    (fetch_other_failure sampleDeps liveCtx sampleClient (NamespacedName.mk "kube-system" "foo")
      "restricted" 0 errForbidden rfl).2.1 rfl,
    (fetch_other_failure sampleDeps liveCtx sampleClient (NamespacedName.mk "ns" "baz")
      "restricted" 0 errForbidden rfl).2.2 rfl⟩

/-- C4, refuted as stated: AnalysisRun with the name `a"b` in namespace `ns`
on a client that answers with a permission error. The verb `%q` escapes the
double quote, so the message `error getting AnalysisRun "a\"b" in namespace
"ns": forbidden` does not contain the name. -/
theorem error_names_identifier_counterexample :
    sampleDeps.IsNotFound errForbidden = false ∧
    (deniedClient.Get Kind.AnalysisRun liveCtx (NamespacedName.mk "ns" "a\"b") default ()).1.2 =
      some errForbidden ∧
    ∃ r, (GetAnalysisRun sampleDeps liveCtx deniedClient (NamespacedName.mk "ns" "a\"b") ()).1.2 =
        some r ∧
      r.Error = "error getting AnalysisRun \"a\\\"b\" in namespace \"ns\": forbidden" ∧
      ¬ Contains r.Error "a\"b" :=
  ⟨rfl, rfl, _, rfl, rfl, by decide⟩

/-- C4, amended: for every identifier and every client failure that is not
not-found, the message of the returned error contains the name of the resource
kind, and it contains the name (for the namespace-scoped kinds also the
namespace) whenever that string is made only of printable characters other
than the double quote and the backslash. -/
theorem error_names_identifier (L : Deps) (ctx : Context) (c : Client σ Obj)
    (key : NamespacedName) (name : String) (st : σ) (e : GoError)
    (hnf : L.IsNotFound e = false) :
    ((c.Get Kind.AnalysisTemplate ctx key default st).1.2 = some e →
      ∃ r, (GetAnalysisTemplate L ctx c key st).1.2 = some r ∧
        Contains r.Error "AnalysisTemplate" ∧
        (plainPrintable L key.Name = true → Contains r.Error key.Name) ∧
        (plainPrintable L key.Namespace = true → Contains r.Error key.Namespace)) ∧
    ((c.Get Kind.ClusterAnalysisTemplate ctx { Name := name } default st).1.2 = some e →
      ∃ r, (GetClusterAnalysisTemplate L ctx c name st).1.2 = some r ∧
        Contains r.Error "ClusterAnalysisTemplate" ∧
        (plainPrintable L name = true → Contains r.Error name)) ∧
    ((c.Get Kind.AnalysisRun ctx key default st).1.2 = some e →
      ∃ r, (GetAnalysisRun L ctx c key st).1.2 = some r ∧
        Contains r.Error "AnalysisRun" ∧
        (plainPrintable L key.Name = true → Contains r.Error key.Name) ∧
        (plainPrintable L key.Namespace = true → Contains r.Error key.Namespace)) := by
  refine ⟨fun h => ?_, fun h => ?_, fun h => ?_⟩
  · rw [GetAnalysisTemplate_err L ctx c key st e h hnf]
    refine ⟨_, rfl, ?_, fun hp => ?_, fun hp => ?_⟩
    · repeat apply Contains_append_left
      decide
    · apply Contains_append_left
      apply Contains_append_left
      apply Contains_append_left
      apply Contains_append_left
      exact Contains_append_right _ _ _ (Contains_Quote_plain L _ hp)
    · apply Contains_append_left
      apply Contains_append_left
      exact Contains_append_right _ _ _ (Contains_Quote_plain L _ hp)
  · rw [GetClusterAnalysisTemplate_err L ctx c name st e h hnf]
    refine ⟨_, rfl, ?_, fun hp => ?_⟩
    · repeat apply Contains_append_left
      decide
    · apply Contains_append_left
      apply Contains_append_left
      exact Contains_append_right _ _ _ (Contains_Quote_plain L _ hp)
  · rw [GetAnalysisRun_err L ctx c key st e h hnf]
    refine ⟨_, rfl, ?_, fun hp => ?_, fun hp => ?_⟩
    · repeat apply Contains_append_left
      decide
    · apply Contains_append_left
      apply Contains_append_left
      apply Contains_append_left
      apply Contains_append_left
      exact Contains_append_right _ _ _ (Contains_Quote_plain L _ hp)
    · apply Contains_append_left
      apply Contains_append_left
      exact Contains_append_right _ _ _ (Contains_Quote_plain L _ hp)

/-- Witness of the amended C4, the scenario of the specification: AnalysisRun
`baz` in namespace `ns` with a permission error gives a message containing
`AnalysisRun`, `baz` and `ns`. -/
theorem error_names_identifier_witness :
    sampleDeps.IsNotFound errForbidden = false ∧
    (sampleClient.Get Kind.AnalysisRun liveCtx (NamespacedName.mk "ns" "baz") default 0).1.2 =
      some errForbidden ∧
    plainPrintable sampleDeps "baz" = true ∧ plainPrintable sampleDeps "ns" = true ∧
    ∃ r, (GetAnalysisRun sampleDeps liveCtx sampleClient (NamespacedName.mk "ns" "baz") 0).1.2 =
        some r ∧
      Contains r.Error "AnalysisRun" ∧ Contains r.Error "baz" ∧ Contains r.Error "ns" :=
  ⟨rfl, rfl, rfl, rfl,
    match (error_names_identifier sampleDeps liveCtx sampleClient (NamespacedName.mk "ns" "baz")
      "restricted" 0 errForbidden rfl).2.2 rfl with
    | ⟨r, hr, hk, hn, hs⟩ => ⟨r, hr, hk, hn rfl, hs rfl⟩⟩

/-- C5: for each of the three fetchers, when the client's `Get` fails with an
error `e` that is not not-found, the returned error wraps `e` unchanged:
unwrapping it yields exactly `e`, and its message ends with the message of
`e`. -/
theorem error_wraps_cause (L : Deps) (ctx : Context) (c : Client σ Obj)
    (key : NamespacedName) (name : String) (st : σ) (e : GoError)
    (hnf : L.IsNotFound e = false) :
    ((c.Get Kind.AnalysisTemplate ctx key default st).1.2 = some e →
      ∃ r, (GetAnalysisTemplate L ctx c key st).1.2 = some r ∧
        r.Unwrap = some e ∧ HasSuffix r.Error e.Error) ∧
    ((c.Get Kind.ClusterAnalysisTemplate ctx { Name := name } default st).1.2 = some e →
      ∃ r, (GetClusterAnalysisTemplate L ctx c name st).1.2 = some r ∧
        r.Unwrap = some e ∧ HasSuffix r.Error e.Error) ∧
    ((c.Get Kind.AnalysisRun ctx key default st).1.2 = some e →
      ∃ r, (GetAnalysisRun L ctx c key st).1.2 = some r ∧
        r.Unwrap = some e ∧ HasSuffix r.Error e.Error) := by
  refine ⟨fun h => ?_, fun h => ?_, fun h => ?_⟩
  · rw [GetAnalysisTemplate_err L ctx c key st e h hnf]
    exact ⟨_, rfl, rfl, HasSuffix_append _ _⟩
  · rw [GetClusterAnalysisTemplate_err L ctx c name st e h hnf]
    exact ⟨_, rfl, rfl, HasSuffix_append _ _⟩
  · rw [GetAnalysisRun_err L ctx c key st e h hnf]
    exact ⟨_, rfl, rfl, HasSuffix_append _ _⟩

/-- Witness of C5 on the client that forbids everything: the three returned
errors unwrap to the permission error and their messages end with
`forbidden`. -/
theorem error_wraps_cause_witness :
    sampleDeps.IsNotFound errForbidden = false ∧
    (∃ r, (GetAnalysisTemplate sampleDeps liveCtx deniedClient
        (NamespacedName.mk "ns" "foo") ()).1.2 = some r ∧
      r.Unwrap = some errForbidden ∧ HasSuffix r.Error "forbidden") ∧
    (∃ r, (GetClusterAnalysisTemplate sampleDeps liveCtx deniedClient "bar" ()).1.2 = some r ∧
      r.Unwrap = some errForbidden ∧ HasSuffix r.Error "forbidden") ∧
    (∃ r, (GetAnalysisRun sampleDeps liveCtx deniedClient
        (NamespacedName.mk "ns" "foo") ()).1.2 = some r ∧
      r.Unwrap = some errForbidden ∧ HasSuffix r.Error "forbidden") :=
  ⟨rfl,
    (error_wraps_cause sampleDeps liveCtx deniedClient (NamespacedName.mk "ns" "foo") "bar" ()
      errForbidden rfl).1 rfl,
    (error_wraps_cause sampleDeps liveCtx deniedClient (NamespacedName.mk "ns" "foo") "bar" ()
      errForbidden rfl).2.1 rfl,
    (error_wraps_cause sampleDeps liveCtx deniedClient (NamespacedName.mk "ns" "foo") "bar" ()
      errForbidden rfl).2.2 rfl⟩

/-- C9: for each of the three fetchers and every client, context, identifier
and client state, the result is a resource with a nil error, or nil with a nil
error, or nil with an error, and never a resource together with an error; the
returned error is non-nil exactly when the client's `Get` failed with an error
that is not not-found, and the returned resource is non-nil exactly when the
client's `Get` succeeded. -/
theorem fetch_outcome_shape (L : Deps) (ctx : Context) (c : Client σ Obj)
    (key : NamespacedName) (name : String) (st : σ) :
    (((∃ obj, (GetAnalysisTemplate L ctx c key st).1 = (some obj, none)) ∨
        (GetAnalysisTemplate L ctx c key st).1 = (none, none) ∨
        ∃ r, (GetAnalysisTemplate L ctx c key st).1 = (none, some r)) ∧
      ¬ ((GetAnalysisTemplate L ctx c key st).1.1 ≠ none ∧
        (GetAnalysisTemplate L ctx c key st).1.2 ≠ none) ∧
      ((GetAnalysisTemplate L ctx c key st).1.2 ≠ none ↔
        ∃ e, (c.Get Kind.AnalysisTemplate ctx key default st).1.2 = some e ∧
          L.IsNotFound e = false) ∧
      ((GetAnalysisTemplate L ctx c key st).1.1 ≠ none ↔
        (c.Get Kind.AnalysisTemplate ctx key default st).1.2 = none)) ∧
    (((∃ obj, (GetClusterAnalysisTemplate L ctx c name st).1 = (some obj, none)) ∨
        (GetClusterAnalysisTemplate L ctx c name st).1 = (none, none) ∨
        ∃ r, (GetClusterAnalysisTemplate L ctx c name st).1 = (none, some r)) ∧
      ¬ ((GetClusterAnalysisTemplate L ctx c name st).1.1 ≠ none ∧
        (GetClusterAnalysisTemplate L ctx c name st).1.2 ≠ none) ∧
      ((GetClusterAnalysisTemplate L ctx c name st).1.2 ≠ none ↔
        ∃ e, (c.Get Kind.ClusterAnalysisTemplate ctx { Name := name } default st).1.2 = some e ∧
          L.IsNotFound e = false) ∧
      ((GetClusterAnalysisTemplate L ctx c name st).1.1 ≠ none ↔
        (c.Get Kind.ClusterAnalysisTemplate ctx { Name := name } default st).1.2 = none)) ∧
    (((∃ obj, (GetAnalysisRun L ctx c key st).1 = (some obj, none)) ∨
        (GetAnalysisRun L ctx c key st).1 = (none, none) ∨
        ∃ r, (GetAnalysisRun L ctx c key st).1 = (none, some r)) ∧
      ¬ ((GetAnalysisRun L ctx c key st).1.1 ≠ none ∧
        (GetAnalysisRun L ctx c key st).1.2 ≠ none) ∧
      ((GetAnalysisRun L ctx c key st).1.2 ≠ none ↔
        ∃ e, (c.Get Kind.AnalysisRun ctx key default st).1.2 = some e ∧
          L.IsNotFound e = false) ∧
      ((GetAnalysisRun L ctx c key st).1.1 ≠ none ↔
        (c.Get Kind.AnalysisRun ctx key default st).1.2 = none)) := by
  refine ⟨?_, ?_, ?_⟩
  · apply shape_of_cases
    · intro h
      exact ⟨_, by rw [GetAnalysisTemplate_ok L ctx c key st h]⟩
    · intro e h hnf
      rw [GetAnalysisTemplate_notFound L ctx c key st e h hnf]
    · intro e h hnf
      exact ⟨_, by rw [GetAnalysisTemplate_err L ctx c key st e h hnf]⟩
  · apply shape_of_cases
    · intro h
      exact ⟨_, by rw [GetClusterAnalysisTemplate_ok L ctx c name st h]⟩
    · intro e h hnf
      rw [GetClusterAnalysisTemplate_notFound L ctx c name st e h hnf]
    · intro e h hnf
      exact ⟨_, by rw [GetClusterAnalysisTemplate_err L ctx c name st e h hnf]⟩
  · apply shape_of_cases
    · intro h
      exact ⟨_, by rw [GetAnalysisRun_ok L ctx c key st h]⟩
    · intro e h hnf
      rw [GetAnalysisRun_notFound L ctx c key st e h hnf]
    · intro e h hnf
      exact ⟨_, by rw [GetAnalysisRun_err L ctx c key st e h hnf]⟩

/-- C10: for a client error `e` that is not not-found, the message of the
returned error is the fixed text, the `%q` rendering of the name (and, for the
namespace-scoped kinds, of the namespace), a colon and the message of `e`;
when the identifier is made only of printable characters other than the double
quote and the backslash it stands verbatim between double quotes. -/
theorem error_message_form (L : Deps) (ctx : Context) (c : Client σ Obj)
    (key : NamespacedName) (name : String) (st : σ) (e : GoError)
    (hnf : L.IsNotFound e = false) :
    ((c.Get Kind.AnalysisTemplate ctx key default st).1.2 = some e →
      ∃ r, (GetAnalysisTemplate L ctx c key st).1.2 = some r ∧
        r.Error = "error getting AnalysisTemplate " ++ Quote L key.Name ++ " in namespace " ++
          Quote L key.Namespace ++ ": " ++ e.Error ∧
        (plainPrintable L key.Name = true → plainPrintable L key.Namespace = true →
          r.Error = "error getting AnalysisTemplate \"" ++ key.Name ++ "\" in namespace \"" ++
            key.Namespace ++ "\": " ++ e.Error)) ∧
    ((c.Get Kind.ClusterAnalysisTemplate ctx { Name := name } default st).1.2 = some e →
      ∃ r, (GetClusterAnalysisTemplate L ctx c name st).1.2 = some r ∧
        r.Error = "error getting ClusterAnalysisTemplate " ++ Quote L name ++ ": " ++ e.Error ∧
        (plainPrintable L name = true →
          r.Error = "error getting ClusterAnalysisTemplate \"" ++ name ++ "\": " ++ e.Error)) ∧
    ((c.Get Kind.AnalysisRun ctx key default st).1.2 = some e →
      ∃ r, (GetAnalysisRun L ctx c key st).1.2 = some r ∧
        r.Error = "error getting AnalysisRun " ++ Quote L key.Name ++ " in namespace " ++
          Quote L key.Namespace ++ ": " ++ e.Error ∧
        (plainPrintable L key.Name = true → plainPrintable L key.Namespace = true →
          r.Error = "error getting AnalysisRun \"" ++ key.Name ++ "\" in namespace \"" ++
            key.Namespace ++ "\": " ++ e.Error)) := by
  refine ⟨fun h => ?_, fun h => ?_, fun h => ?_⟩
  · rw [GetAnalysisTemplate_err L ctx c key st e h hnf]
    refine ⟨_, rfl, rfl, fun h1 h2 => ?_⟩
    simp only [GoError.Error, Quote_plain L _ h1, Quote_plain L _ h2]
    apply String.ext
    simp [String.data_append]
  · rw [GetClusterAnalysisTemplate_err L ctx c name st e h hnf]
    refine ⟨_, rfl, rfl, fun h1 => ?_⟩
    simp only [GoError.Error, Quote_plain L _ h1]
    apply String.ext
    simp [String.data_append]
  · rw [GetAnalysisRun_err L ctx c key st e h hnf]
    refine ⟨_, rfl, rfl, fun h1 h2 => ?_⟩
    simp only [GoError.Error, Quote_plain L _ h1, Quote_plain L _ h2]
    apply String.ext
    simp [String.data_append]

/-- Witness of C10 on the sample cluster, with the three messages spelled
out. -/
theorem error_message_form_witness :
    sampleDeps.IsNotFound errForbidden = false ∧
    (∃ r, (GetAnalysisTemplate sampleDeps liveCtx sampleClient
        (NamespacedName.mk "kube-system" "foo") 0).1.2 = some r ∧
      r.Error = "error getting AnalysisTemplate \"foo\" in namespace \"kube-system\": forbidden") ∧
    (∃ r, (GetClusterAnalysisTemplate sampleDeps liveCtx sampleClient "restricted" 0).1.2 =
        some r ∧
      r.Error = "error getting ClusterAnalysisTemplate \"restricted\": forbidden") ∧
    (∃ r, (GetAnalysisRun sampleDeps liveCtx sampleClient (NamespacedName.mk "ns" "baz") 0).1.2 =
        some r ∧
      r.Error = "error getting AnalysisRun \"baz\" in namespace \"ns\": forbidden") :=
  ⟨rfl,
    match (error_message_form sampleDeps liveCtx sampleClient
      (NamespacedName.mk "kube-system" "foo") "restricted" 0 errForbidden rfl).1 rfl with
    | ⟨r, hr, _, hplain⟩ => ⟨r, hr, hplain rfl rfl⟩,
    match (error_message_form sampleDeps liveCtx sampleClient
      (NamespacedName.mk "kube-system" "foo") "restricted" 0 errForbidden rfl).2.1 rfl with
    | ⟨r, hr, _, hplain⟩ => ⟨r, hr, hplain rfl⟩,
    match (error_message_form sampleDeps liveCtx sampleClient
      (NamespacedName.mk "ns" "baz") "restricted" 0 errForbidden rfl).2.2 rfl with
    | ⟨r, hr, _, hplain⟩ => ⟨r, hr, hplain rfl rfl⟩⟩

/-- C6: every call of one of the three fetchers performs exactly one `Get` on
the client, whatever that `Get` returns: the client state after the fetch is
the state after that single `Get`, and on a client that records its calls the
log grows by exactly one entry, the `Get` of the fetcher's kind; no other
method is logged and no second `Get` follows a failure. -/
theorem fetch_single_get (L : Deps) (ctx : Context) (c : Client σ Obj)
    (key : NamespacedName) (name : String) (st : σ) (log : List ClientCall) :
    ((GetAnalysisTemplate L ctx c key st).2 =
        (c.Get Kind.AnalysisTemplate ctx key default st).2 ∧
      (GetAnalysisTemplate L ctx (recording c) key (st, log)).2.2 =
        log ++ [ClientCall.Get Kind.AnalysisTemplate ctx key]) ∧
    ((GetClusterAnalysisTemplate L ctx c name st).2 =
        (c.Get Kind.ClusterAnalysisTemplate ctx { Name := name } default st).2 ∧
      (GetClusterAnalysisTemplate L ctx (recording c) name (st, log)).2.2 =
        log ++ [ClientCall.Get Kind.ClusterAnalysisTemplate ctx { Name := name }]) ∧
    ((GetAnalysisRun L ctx c key st).2 = (c.Get Kind.AnalysisRun ctx key default st).2 ∧
      (GetAnalysisRun L ctx (recording c) key (st, log)).2.2 =
        log ++ [ClientCall.Get Kind.AnalysisRun ctx key]) := by
  refine ⟨⟨?_, ?_⟩, ⟨?_, ?_⟩, ⟨?_, ?_⟩⟩
  · exact GetAnalysisTemplate_state L ctx c key st
  · rw [GetAnalysisTemplate_state L ctx (recording c) key (st, log)]
    rfl
  · exact GetClusterAnalysisTemplate_state L ctx c name st
  · rw [GetClusterAnalysisTemplate_state L ctx (recording c) name (st, log)]
    rfl
  · exact GetAnalysisRun_state L ctx c key st
  · rw [GetAnalysisRun_state L ctx (recording c) key (st, log)]
    rfl

/-- C7: the identifier handed to the client is the caller's: on a client that
records its calls, the entries a fetch adds to the log are the single `Get`
with the given (namespace, name) pair for `GetAnalysisTemplate` and
`GetAnalysisRun`, and for `GetClusterAnalysisTemplate` the single `Get` whose
key has the given name and the empty namespace. -/
theorem fetch_passes_identifier (L : Deps) (ctx : Context) (c : Client σ Obj)
    (ns name : String) (st : σ) (log : List ClientCall) :
    (GetAnalysisTemplate L ctx (recording c) (NamespacedName.mk ns name) (st, log)).2.2.drop
        log.length = [ClientCall.Get Kind.AnalysisTemplate ctx (NamespacedName.mk ns name)] ∧
    (GetClusterAnalysisTemplate L ctx (recording c) name (st, log)).2.2.drop log.length =
        [ClientCall.Get Kind.ClusterAnalysisTemplate ctx (NamespacedName.mk "" name)] ∧
    (GetAnalysisRun L ctx (recording c) (NamespacedName.mk ns name) (st, log)).2.2.drop
        log.length = [ClientCall.Get Kind.AnalysisRun ctx (NamespacedName.mk ns name)] := by
  refine ⟨?_, ?_, ?_⟩
  · rw [GetAnalysisTemplate_state L ctx (recording c) _ (st, log)]
    show (log ++ [_]).drop log.length = _
    simp
  · rw [GetClusterAnalysisTemplate_state L ctx (recording c) name (st, log)]
    show (log ++ [_]).drop log.length = _
    simp
  · rw [GetAnalysisRun_state L ctx (recording c) _ (st, log)]
    show (log ++ [_]).drop log.length = _
    simp

/-- C8, refuted as stated: with a cancelled context, on a client that answers
from memory without looking at the context, each fetch returns a non-nil
resource and a nil error. -/
theorem fetch_cancelled_counterexample :
    canceledCtx.Err = some errCanceled ∧
    (GetAnalysisTemplate sampleDeps canceledCtx cacheClient (NamespacedName.mk "ns" "foo") ()).1 =
      (some "foo", none) ∧
    (GetClusterAnalysisTemplate sampleDeps canceledCtx cacheClient "bar" ()).1 =
      (some "bar", none) ∧
    (GetAnalysisRun sampleDeps canceledCtx cacheClient (NamespacedName.mk "ns" "baz") ()).1 =
      (some "baz", none) :=
  ⟨rfl, rfl, rfl, rfl⟩

/-- C8, amended: a fetch does not inspect the context; it hands the caller's
context to its one `Get`. For every client, identifier and cancelled or
expired context, each fetch passes that context to `Get`, and whenever that
`Get` fails with an error that is not a not-found error the fetch returns a
nil resource and a non-nil error, which wraps the client's error. -/
theorem fetch_cancelled_propagates (L : Deps) (ctx : Context) (c : Client σ Obj)
    (key : NamespacedName) (name : String) (st : σ) (log : List ClientCall) (e : GoError)
    (_hctx : ctx.Err ≠ none) (hnf : L.IsNotFound e = false) :
    ((GetAnalysisTemplate L ctx (recording c) key (st, log)).2.2 =
        log ++ [ClientCall.Get Kind.AnalysisTemplate ctx key] ∧
      ((c.Get Kind.AnalysisTemplate ctx key default st).1.2 = some e →
        (GetAnalysisTemplate L ctx c key st).1.1 = none ∧
        (GetAnalysisTemplate L ctx c key st).1.2 ≠ none ∧
        ∃ r, (GetAnalysisTemplate L ctx c key st).1.2 = some r ∧ r.Unwrap = some e)) ∧
    ((GetClusterAnalysisTemplate L ctx (recording c) name (st, log)).2.2 =
        log ++ [ClientCall.Get Kind.ClusterAnalysisTemplate ctx { Name := name }] ∧
      ((c.Get Kind.ClusterAnalysisTemplate ctx { Name := name } default st).1.2 = some e →
        (GetClusterAnalysisTemplate L ctx c name st).1.1 = none ∧
        (GetClusterAnalysisTemplate L ctx c name st).1.2 ≠ none ∧
        ∃ r, (GetClusterAnalysisTemplate L ctx c name st).1.2 = some r ∧ r.Unwrap = some e)) ∧
    ((GetAnalysisRun L ctx (recording c) key (st, log)).2.2 =
        log ++ [ClientCall.Get Kind.AnalysisRun ctx key] ∧
      ((c.Get Kind.AnalysisRun ctx key default st).1.2 = some e →
        (GetAnalysisRun L ctx c key st).1.1 = none ∧
        (GetAnalysisRun L ctx c key st).1.2 ≠ none ∧
        ∃ r, (GetAnalysisRun L ctx c key st).1.2 = some r ∧ r.Unwrap = some e)) := by
  refine ⟨⟨?_, fun h => ?_⟩, ⟨?_, fun h => ?_⟩, ⟨?_, fun h => ?_⟩⟩
  · rw [GetAnalysisTemplate_state L ctx (recording c) key (st, log)]
    rfl
  · rw [GetAnalysisTemplate_err L ctx c key st e h hnf]
    exact ⟨rfl, by simp, _, rfl, rfl⟩
  · rw [GetClusterAnalysisTemplate_state L ctx (recording c) name (st, log)]
    rfl
  · rw [GetClusterAnalysisTemplate_err L ctx c name st e h hnf]
    exact ⟨rfl, by simp, _, rfl, rfl⟩
  · rw [GetAnalysisRun_state L ctx (recording c) key (st, log)]
    rfl
  · rw [GetAnalysisRun_err L ctx c key st e h hnf]
    exact ⟨rfl, by simp, _, rfl, rfl⟩

/-- Witness of the amended C8 with the cancelled context: on the sample
cluster, whose `Get` gives up with `context canceled` itself,
`GetAnalysisTemplate` returns nil with an error wrapping it; on the client
that aborts the request with an error wrapping `context canceled`,
`GetClusterAnalysisTemplate` and `GetAnalysisRun` return nil with an error
wrapping the client's error. -/
theorem fetch_cancelled_propagates_witness :
    canceledCtx.Err ≠ none ∧ sampleDeps.IsNotFound errCanceled = false ∧
    sampleDeps.IsNotFound (GoError.wrapError "request aborted: context canceled" errCanceled) =
      false ∧
    ((GetAnalysisTemplate sampleDeps canceledCtx sampleClient
        (NamespacedName.mk "ns" "foo") 0).1.1 = none ∧
      (GetAnalysisTemplate sampleDeps canceledCtx sampleClient
        (NamespacedName.mk "ns" "foo") 0).1.2 ≠ none ∧
      ∃ r, (GetAnalysisTemplate sampleDeps canceledCtx sampleClient
        (NamespacedName.mk "ns" "foo") 0).1.2 = some r ∧ r.Unwrap = some errCanceled) ∧
    ((GetClusterAnalysisTemplate sampleDeps canceledCtx remoteClient "bar" ()).1.1 = none ∧
      (GetClusterAnalysisTemplate sampleDeps canceledCtx remoteClient "bar" ()).1.2 ≠ none ∧
      ∃ r, (GetClusterAnalysisTemplate sampleDeps canceledCtx remoteClient "bar" ()).1.2 =
          some r ∧
        r.Unwrap = some (GoError.wrapError "request aborted: context canceled" errCanceled)) ∧
    ((GetAnalysisRun sampleDeps canceledCtx remoteClient
        (NamespacedName.mk "ns" "baz") ()).1.1 = none ∧
      (GetAnalysisRun sampleDeps canceledCtx remoteClient
        (NamespacedName.mk "ns" "baz") ()).1.2 ≠ none ∧
      ∃ r, (GetAnalysisRun sampleDeps canceledCtx remoteClient
          (NamespacedName.mk "ns" "baz") ()).1.2 = some r ∧
        r.Unwrap = some (GoError.wrapError "request aborted: context canceled" errCanceled)) :=
  ⟨by decide, rfl, rfl,
    (fetch_cancelled_propagates sampleDeps canceledCtx sampleClient (NamespacedName.mk "ns" "foo")
      "global" 0 [] errCanceled (by decide) rfl).1.2 rfl,
    (fetch_cancelled_propagates sampleDeps canceledCtx remoteClient (NamespacedName.mk "ns" "baz")
      "bar" () [] (GoError.wrapError "request aborted: context canceled" errCanceled)
      (by decide) rfl).2.1.2 rfl,
    (fetch_cancelled_propagates sampleDeps canceledCtx remoteClient (NamespacedName.mk "ns" "baz")
      "bar" () [] (GoError.wrapError "request aborted: context canceled" errCanceled)
      (by decide) rfl).2.2.2 rfl⟩

end Claims

end Rollouts
